import Mathlib

/-!
Verification of the AI TRPG FastAPI backend (`server.py`) against its
natural-language specification.

The embedding is shallow: the pure contract layer (dice resolver, JSON
response normalizer, history windowing, route exception flow) is translated
into executable Lean definitions.  The external pieces — the generative
backend (`client.models.generate_content`) and Python's `json.loads` — are
modelled as oracle parameters of type `Except`: the handler logic is
translated verbatim from the source, and the oracles supply "what the
library call returned / raised" for each run.
-/

/-- JSON values, as produced by `json.loads`.  Objects are association lists
in insertion order (Python dicts preserve insertion order); numbers are
modelled as integers, which suffices for every value the claims touch. -/
inductive JValue where
  | null
  | bool (b : Bool)
  | num (n : Int)
  | str (s : String)
  | arr (xs : List JValue)
  | obj (kvs : List (String × JValue))

/-- `isinstance(v, list)` on a parsed JSON value. -/
def JValue.isArr : JValue → Bool
  | .arr _ => true
  | _ => false

/-- `isinstance(v, dict)` on a parsed JSON value. -/
def JValue.isObj : JValue → Bool
  | .obj _ => true
  | _ => false

/-- Key lookup in a JSON object (`result["k"]` / `"k" in result`);
`none` on non-objects. -/
def JValue.lookupKey : JValue → String → Option JValue
  | .obj kvs, k => kvs.lookup k
  | _, _ => none

/-- The `detail` payload attached to an `HTTPException` in `server.py`:
`call_gemini` raises `{error, reason}` and `parse_json_response` raises
`{error, reason, raw_response}`; `raw_response` is `none` when absent. -/
structure ErrorDetail where
  error : String
  reason : String
  raw_response : Option String
deriving Repr, DecidableEq

/-- A Python exception as the route handlers observe it: either a FastAPI
`HTTPException` (with status code and detail) or any other exception
(carrying its message).  The distinction matters because `game_action`
re-raises `HTTPException` but swallows everything else. -/
inductive PyExc where
  | httpException (status : Nat) (detail : ErrorDetail)
  | otherException (msg : String)
deriving Repr, DecidableEq

/-- `call_gemini` (server.py §5): the outbound call itself is the oracle
`backend` (`.ok text` = the SDK returned a response with that `text`;
`.error e` = the SDK raised, or the response had no `text` attribute, with
message `e`).  Any failure is wrapped uniformly into an HTTP 500
`HTTPException` with the cause string attached. -/
def call_gemini (backend : Except String String) : Except PyExc String :=
  match backend with
  | .ok text => .ok text
  | .error e => .error (.httpException 500 ⟨"Gemini 호출 중 오류가 발생했습니다.", e, none⟩)

/-- `parse_json_response` (server.py §5).  `loads` is the oracle outcome of
`json.loads text` (`.error diag` = `json.JSONDecodeError` with diagnostic
`diag`).  On success: a list is wrapped as `{"items": ...}`, then any
non-dict is wrapped as `{"result": ...}`; a dict passes through unchanged.
On parse failure: an HTTP 500 `HTTPException` is raised whose detail carries
the diagnostic and the raw text. -/
def parse_json_response (text : String) (loads : Except String JValue) :
    Except PyExc JValue :=
  match loads with
  | .ok parsed =>
      let parsed := if parsed.isArr then JValue.obj [("items", parsed)] else parsed
      let parsed := if parsed.isObj then parsed else JValue.obj [("result", parsed)]
      .ok parsed
  | .error diag =>
      .error (.httpException 500 ⟨"AI 응답(JSON) 파싱에 실패했습니다.", diag, some text⟩)

/-- The `RollOutcome` dict returned by `roll_dice` (`POST /api/game/roll`). -/
structure RollOutcome where
  success : Bool
  roll : Int
  bonus : Int
  total : Int
  difficulty : Int
  is_success : Bool
  is_critical : Bool
  is_fumble : Bool
deriving Repr, DecidableEq

/-- `roll_dice` (server.py §7), with the drawn die value
`roll = random.randint(1, 20)` passed in explicitly.  Python's `//` is
floor division, embedded as `Int.fdiv`. -/
def roll_dice (roll : Int) (stat_value : Int) (difficulty : Int) : RollOutcome :=
  let total := roll + (stat_value - 10).fdiv 2
  let success := decide (total ≥ difficulty)
  let critical := decide (roll = 20)
  let fumble := decide (roll = 1)
  { success := true
    roll := roll
    bonus := (stat_value - 10).fdiv 2
    total := total
    difficulty := difficulty
    is_success := success || critical
    is_critical := critical
    is_fumble := fumble }

/-- One entry of the `history` list sent to `POST /api/game/action`
(`List[Dict[str, str]]` with keys `role` and `text`). -/
structure HistoryEntry where
  role : String
  text : String
deriving Repr, DecidableEq

/-- The role→label tag applied to each serialized history entry
(server.py, `game_action` prompt building): `gm` → `[GM]`,
`player` → `[플레이어]`, `npc` → `[NPC]`, anything else → `[시스템]`. -/
def role_label (role : String) : String :=
  if role = "gm" then "[GM]"
  else if role = "player" then "[플레이어]"
  else if role = "npc" then "[NPC]"
  else "[시스템]"

/-- `recent_history = history[-10:] if len(history) > 10 else history`. -/
def recent_history (history : List HistoryEntry) : List HistoryEntry :=
  if history.length > 10 then history.drop (history.length - 10) else history

/-- `history_text`: the windowed history serialized into the prompt, one
`label: text` line per entry, joined with newlines. -/
def history_text (history : List HistoryEntry) : String :=
  String.intercalate "\n"
    ((recent_history history).map (fun h => role_label h.role ++ ": " ++ h.text))

/-- The `if 'dialogues' not in result: result['dialogues'] = []` repair step
shared by `game_action` and `roll_result_narration`, on the object's
key-value list (a fresh key is appended, matching dict insertion order). -/
def ensure_dialogues (kvs : List (String × JValue)) : List (String × JValue) :=
  if (kvs.lookup "dialogues").isSome then kvs
  else kvs ++ [("dialogues", JValue.arr [])]

/-- The dialogues repair lifted to the normalizer's output value (which is
always a dict, so the non-object branch is unreachable). -/
def ensure_dialogues_j : JValue → JValue
  | .obj kvs => .obj (ensure_dialogues kvs)
  | v => v

/-- The `{"success": ..., "result": ...}` envelope returned by the
game-event routes. -/
structure RouteResponse where
  success : Bool
  result : JValue

/-- The hand-authored fallback GameEvent of `game_action`
(the dict literal under `except Exception`). -/
def game_action_fallback : JValue := .obj
  [("narration", .str "알 수 없는 오류가 발생했습니다."),
   ("dialogues", .arr []),
   ("requires_roll", .bool false),
   ("roll_type", .null),
   ("roll_difficulty", .null),
   ("damage_taken", .num 0),
   ("items_gained", .arr []),
   ("items_lost", .arr []),
   ("npc_present", .null),
   ("danger_level", .str "safe"),
   ("image_prompt", .null)]

/-- The body of `game_action`'s `try:` block: call the backend, normalize,
repair `dialogues`.  Exceptions flow as `Except.error`. -/
def game_action_try (backend : Except String String)
    (loads : String → Except String JValue) : Except PyExc JValue :=
  match call_gemini backend with
  | .error e => .error e
  | .ok response_text =>
    match parse_json_response response_text (loads response_text) with
    | .error e => .error e
    | .ok result => .ok (ensure_dialogues_j result)

/-- `game_action` (`POST /api/game/action`), faithful to its exception
clauses: `except HTTPException: raise` re-raises, and only a bare
`except Exception` returns the fallback GameEvent with `success: True`.
(Prompt building happens before the `try:` in the source, so its exceptions
are not modelled here — they propagate unconditionally.) -/
def game_action (backend : Except String String)
    (loads : String → Except String JValue) : Except PyExc RouteResponse :=
  match game_action_try backend loads with
  | .ok result => .ok ⟨true, result⟩
  | .error (.httpException status detail) => .error (.httpException status detail)
  | .error (.otherException _) => .ok ⟨true, game_action_fallback⟩

/-- The hand-authored fallback result of `roll_result_narration`
(the dict literal under the bare `except:`). -/
def roll_result_fallback : JValue := .obj
  [("narration", .str "판정 결과가 적용되었습니다."),
   ("dialogues", .arr []),
   ("damage_taken", .num 0),
   ("items_gained", .arr []),
   ("danger_level", .str "safe"),
   ("image_prompt", .null)]

/-- The body of `roll_result_narration`'s `try:` block (same shape as
`game_action_try`). -/
def roll_result_try (backend : Except String String)
    (loads : String → Except String JValue) : Except PyExc JValue :=
  match call_gemini backend with
  | .error e => .error e
  | .ok response_text =>
    match parse_json_response response_text (loads response_text) with
    | .error e => .error e
    | .ok result => .ok (ensure_dialogues_j result)

/-- `roll_result_narration` (`POST /api/game/roll-result`): its bare
`except:` catches every exception (`HTTPException` included), so the route
always returns `success: True`, with the fallback result on any failure. -/
def roll_result_narration (backend : Except String String)
    (loads : String → Except String JValue) : RouteResponse :=
  match roll_result_try backend loads with
  | .ok result => ⟨true, result⟩
  | .error _ => ⟨true, roll_result_fallback⟩

/-- Helper: Python's `//` by 2 (floor division, `Int.fdiv`) agrees with
Euclidean division by 2, so `omega` can reason about it. -/
theorem fdiv_two_eq_ediv (a : Int) : a.fdiv 2 = a / 2 :=
  Int.fdiv_eq_ediv a (by decide)

/-- C3: for all integers `stat_value` and `difficulty` (and any drawn die),
the bonus is `floor((stat_value - 10) / 2)` — characterized by
`2*bonus ≤ stat_value - 10 < 2*bonus + 2` — with the quoted examples
`10 ↦ 0`, `7 ↦ -2`, `21 ↦ 5`, and the returned total equals
`roll + bonus`. -/
theorem roll_dice_bonus_floor (roll stat_value difficulty : Int) :
    2 * (roll_dice roll stat_value difficulty).bonus ≤ stat_value - 10 ∧
    stat_value - 10 < 2 * (roll_dice roll stat_value difficulty).bonus + 2 ∧
    (roll_dice roll stat_value difficulty).total =
      roll + (roll_dice roll stat_value difficulty).bonus ∧
    (roll_dice roll 10 difficulty).bonus = 0 ∧
    (roll_dice roll 7 difficulty).bonus = -2 ∧
    (roll_dice roll 21 difficulty).bonus = 5 := by
  refine ⟨?_, ?_, rfl, rfl, rfl, rfl⟩
  · show 2 * ((stat_value - 10).fdiv 2) ≤ stat_value - 10
    rw [fdiv_two_eq_ediv]; omega
  · show stat_value - 10 < 2 * ((stat_value - 10).fdiv 2) + 2
    rw [fdiv_two_eq_ediv]; omega

/-- C4: a drawn raw value of 20 yields `is_critical = true` and
`is_success = true` for every `stat_value` and `difficulty` (including
difficulties the total cannot reach, e.g. 100), and in general
`is_success = (total ≥ difficulty) OR is_critical`. -/
theorem roll_dice_natural_twenty (stat_value difficulty : Int) :
    (roll_dice 20 stat_value difficulty).is_critical = true ∧
    (roll_dice 20 stat_value difficulty).is_success = true ∧
    (roll_dice 20 stat_value 100).is_success = true ∧
    (∀ roll : Int, (roll_dice roll stat_value difficulty).is_success =
      (decide ((roll_dice roll stat_value difficulty).total ≥ difficulty) ||
        (roll_dice roll stat_value difficulty).is_critical)) := by
  refine ⟨by simp [roll_dice], by simp [roll_dice], by simp [roll_dice],
    fun roll => rfl⟩

/-- C5: whenever the drawn raw value is 1 and the computed total is strictly
below the difficulty, the outcome has `is_fumble = true` and
`is_success = false`. -/
theorem roll_dice_fumble (stat_value difficulty : Int)
    (h : (roll_dice 1 stat_value difficulty).total < difficulty) :
    (roll_dice 1 stat_value difficulty).is_fumble = true ∧
    (roll_dice 1 stat_value difficulty).is_success = false := by
  have ht : (roll_dice 1 stat_value difficulty).total =
      1 + (stat_value - 10).fdiv 2 := rfl
  rw [ht] at h
  refine ⟨by simp [roll_dice], ?_⟩
  show (decide (1 + (stat_value - 10).fdiv 2 ≥ difficulty) ||
    decide ((1 : Int) = 20)) = false
  simp only [Bool.or_eq_false_iff, decide_eq_false_iff_not]
  exact ⟨by omega, by omega⟩

/-- Witness for `roll_dice_fumble`: raw 1 against stat 10, difficulty 12
(total 1 < 12). -/
theorem roll_dice_fumble_witness :
    (roll_dice 1 10 12).is_fumble = true ∧
    (roll_dice 1 10 12).is_success = false :=
  roll_dice_fumble 10 12 (by decide)

/-- C10: internal consistency of every `/api/game/roll` response, given the
`random.randint(1, 20)` contract on the drawn value: `total = roll + bonus`,
the returned `roll` lies in `[1, 20]`, `is_critical` and `is_fumble` are
never both true, and on a fumble `is_success` holds only if
`total ≥ difficulty` (a natural 1 is not auto-failed). -/
theorem roll_dice_invariants (roll stat_value difficulty : Int)
    (h1 : 1 ≤ roll) (h2 : roll ≤ 20) :
    (roll_dice roll stat_value difficulty).success = true ∧
    (roll_dice roll stat_value difficulty).total =
      (roll_dice roll stat_value difficulty).roll +
        (roll_dice roll stat_value difficulty).bonus ∧
    1 ≤ (roll_dice roll stat_value difficulty).roll ∧
    (roll_dice roll stat_value difficulty).roll ≤ 20 ∧
    ¬((roll_dice roll stat_value difficulty).is_critical = true ∧
      (roll_dice roll stat_value difficulty).is_fumble = true) ∧
    ((roll_dice roll stat_value difficulty).is_fumble = true →
      (roll_dice roll stat_value difficulty).is_success = true →
      (roll_dice roll stat_value difficulty).total ≥ difficulty) := by
  refine ⟨rfl, rfl, h1, h2, ?_, ?_⟩
  · rintro ⟨hc, hf⟩
    have hc' : roll = 20 := by simpa [roll_dice] using hc
    have hf' : roll = 1 := by simpa [roll_dice] using hf
    omega
  · intro hf hs
    have hf' : roll = 1 := by simpa [roll_dice] using hf
    have hs' : roll + (stat_value - 10).fdiv 2 ≥ difficulty ∨ roll = 20 := by
      simpa [roll_dice, Bool.or_eq_true, decide_eq_true_eq] using hs
    show roll + (stat_value - 10).fdiv 2 ≥ difficulty
    omega

/-- Witness for `roll_dice_invariants`: a concrete in-range draw
(roll 17, stat 14, difficulty 12). -/
theorem roll_dice_invariants_witness :
    (roll_dice 17 14 12).success = true ∧
    (roll_dice 17 14 12).total =
      (roll_dice 17 14 12).roll + (roll_dice 17 14 12).bonus ∧
    1 ≤ (roll_dice 17 14 12).roll ∧
    (roll_dice 17 14 12).roll ≤ 20 ∧
    ¬((roll_dice 17 14 12).is_critical = true ∧
      (roll_dice 17 14 12).is_fumble = true) ∧
    ((roll_dice 17 14 12).is_fumble = true →
      (roll_dice 17 14 12).is_success = true →
      (roll_dice 17 14 12).total ≥ 12) :=
  roll_dice_invariants 17 14 12 (by decide) (by decide)

/-- C6: on parse success the normalizer passes a mapping through unchanged,
wraps a sequence as `{"items": ...}`, and wraps a scalar (neither mapping
nor sequence) as `{"result": ...}`. -/
theorem parse_json_response_success_shapes :
    (∀ (text : String) (kvs : List (String × JValue)),
      parse_json_response text (.ok (.obj kvs)) = .ok (.obj kvs)) ∧
    (∀ (text : String) (xs : List JValue),
      parse_json_response text (.ok (.arr xs)) =
        .ok (.obj [("items", .arr xs)])) ∧
    (∀ (text : String) (v : JValue), v.isObj = false → v.isArr = false →
      parse_json_response text (.ok v) = .ok (.obj [("result", v)])) := by
  refine ⟨fun text kvs => rfl, fun text xs => rfl, fun text v ho ha => ?_⟩
  simp [parse_json_response, ho, ha]

/-- Witness for `parse_json_response_success_shapes`: the spec's three
round-trip examples `{"a":1}`, `[1,2,3]` and `"hi"`. -/
theorem parse_json_response_success_shapes_witness :
    parse_json_response "t" (.ok (.obj [("a", .num 1)])) =
      .ok (.obj [("a", .num 1)]) ∧
    parse_json_response "t" (.ok (.arr [.num 1, .num 2, .num 3])) =
      .ok (.obj [("items", .arr [.num 1, .num 2, .num 3])]) ∧
    parse_json_response "t" (.ok (.str "hi")) =
      .ok (.obj [("result", .str "hi")]) :=
  ⟨parse_json_response_success_shapes.1 "t" [("a", .num 1)],
   parse_json_response_success_shapes.2.1 "t" [.num 1, .num 2, .num 3],
   parse_json_response_success_shapes.2.2 "t" (.str "hi") rfl rfl⟩

/-- C7: on parse failure the normalizer raises an HTTP 500 error whose
detail carries both the original raw text and the parser diagnostic, and it
never returns a success value at this layer. -/
theorem parse_json_response_failure (text diag : String) :
    parse_json_response text (.error diag) =
      .error (.httpException 500
        ⟨"AI 응답(JSON) 파싱에 실패했습니다.", diag, some text⟩) ∧
    ∀ v : JValue, parse_json_response text (.error diag) ≠ .ok v := by
  refine ⟨rfl, fun v h => ?_⟩
  exact Except.noConfusion h

/-- Witness for `parse_json_response_failure`: the spec's malformed input
`"{not json"`. -/
theorem parse_json_response_failure_witness :
    parse_json_response "\x7bnot json" (.error "Expecting value") =
      .error (.httpException 500
        ⟨"AI 응답(JSON) 파싱에 실패했습니다.", "Expecting value",
         some "\x7bnot json"⟩) ∧
    parse_json_response "\x7bnot json" (.error "Expecting value") ≠
      .ok (.obj []) :=
  ⟨(parse_json_response_failure "\x7bnot json" "Expecting value").1,
   (parse_json_response_failure "\x7bnot json" "Expecting value").2 (.obj [])⟩

/-- Helper: the Python slice `history[-10:] if len(history) > 10 else
history` always equals dropping all but the last 10 entries. -/
theorem recent_history_eq_drop (history : List HistoryEntry) :
    recent_history history = history.drop (history.length - 10) := by
  unfold recent_history
  by_cases h : history.length > 10
  · rw [if_pos h]
  · rw [if_neg h]
    have h0 : history.length - 10 = 0 := by omega
    rw [h0, List.drop_zero]

/-- Helper: with exactly 10 trailing entries, the window is those entries. -/
theorem recent_history_append_ten (old recent : List HistoryEntry)
    (h : recent.length = 10) : recent_history (old ++ recent) = recent := by
  rw [recent_history_eq_drop]
  have hlen : (old ++ recent).length = old.length + 10 := by
    rw [List.length_append, h]
  rw [hlen]
  have h10 : old.length + 10 - 10 = old.length := by omega
  rw [h10, List.drop_left]

/-- C8: the serialized history window is exactly the last 10 entries (all of
them when there are 10 or fewer), in original relative order, each tagged by
the fixed role→label mapping (`gm`/`player`/`npc` each get their own label,
every other role the system label); entries before the last 10 never reach
the prompt. -/
theorem history_windowing :
    (∀ (old recent : List HistoryEntry), recent.length = 10 →
      history_text (old ++ recent) = history_text recent) ∧
    (∀ history : List HistoryEntry, history.length ≤ 10 →
      history_text history = String.intercalate "\n"
        (history.map (fun h => role_label h.role ++ ": " ++ h.text))) ∧
    role_label "gm" = "[GM]" ∧
    role_label "player" = "[플레이어]" ∧
    role_label "npc" = "[NPC]" ∧
    (∀ role : String, role ≠ "gm" → role ≠ "player" → role ≠ "npc" →
      role_label role = "[시스템]") := by
  refine ⟨?_, ?_, rfl, rfl, rfl, ?_⟩
  · intro old recent h
    unfold history_text
    rw [recent_history_append_ten old recent h]
    have hr : recent_history recent = recent := by
      rw [recent_history_eq_drop]
      have : recent.length - 10 = 0 := by omega
      rw [this, List.drop_zero]
    rw [hr]
  · intro history h
    unfold history_text
    have hr : recent_history history = history := by
      rw [recent_history_eq_drop]
      have : history.length - 10 = 0 := by omega
      rw [this, List.drop_zero]
    rw [hr]
  · intro role h1 h2 h3
    unfold role_label
    rw [if_neg h1, if_neg h2, if_neg h3]

/-- Witness for `history_windowing`: 15 entries — 5 old, 10 recent — whose
serialization equals that of the 10 recent entries alone. -/
theorem history_windowing_witness :
    history_text
      (List.replicate 5 (HistoryEntry.mk "gm" "old") ++
        List.replicate 10 (HistoryEntry.mk "player" "new")) =
      history_text (List.replicate 10 (HistoryEntry.mk "player" "new")) :=
  history_windowing.1 (List.replicate 5 (HistoryEntry.mk "gm" "old"))
    (List.replicate 10 (HistoryEntry.mk "player" "new"))
    (List.length_replicate 10 (HistoryEntry.mk "player" "new"))

/-- Helper: appending the `dialogues` default does not disturb the binding
of any other key. -/
theorem lookup_append_dialogues_ne (kvs : List (String × JValue)) (k : String)
    (h : k ≠ "dialogues") :
    (kvs ++ [("dialogues", JValue.arr [])]).lookup k = kvs.lookup k := by
  rw [List.lookup_append]
  have hsingle : ([("dialogues", JValue.arr [])] : List (String × JValue)).lookup k = none := by
    rw [List.lookup_cons]
    have : (k == "dialogues") = false := beq_eq_false_iff_ne.mpr h
    rw [this]
    rfl
  rw [hsingle, Option.or_none]

/-- Helper: the normalizer only ever succeeds with a mapping (any list or
scalar has been wrapped into a dict). -/
theorem parse_json_response_ok_isObj (text : String)
    (loads : Except String JValue) (v : JValue)
    (h : parse_json_response text loads = .ok v) : v.isObj = true := by
  cases loads with
  | error diag => exact absurd h (by simp [parse_json_response])
  | ok parsed =>
    cases parsed <;>
      simp only [parse_json_response, JValue.isArr, JValue.isObj,
        if_true, if_false, Except.ok.injEq] at h <;>
      rw [← h] <;> rfl

/-- C9: the success-path repair of the game-event routes — a mapping lacking
`dialogues` gets it set to the empty list (appended, nothing else touched),
a mapping that has it is returned unchanged, every other key's binding is
preserved, and consequently every `.ok` result of both routes' try-blocks
carries a `dialogues` key. -/
theorem ensure_dialogues_spec :
    (∀ kvs : List (String × JValue),
      ((ensure_dialogues kvs).lookup "dialogues").isSome = true) ∧
    (∀ kvs : List (String × JValue),
      (kvs.lookup "dialogues").isSome = true → ensure_dialogues kvs = kvs) ∧
    (∀ kvs : List (String × JValue),
      kvs.lookup "dialogues" = none →
      ensure_dialogues kvs = kvs ++ [("dialogues", JValue.arr [])]) ∧
    (∀ (kvs : List (String × JValue)) (k : String), k ≠ "dialogues" →
      (ensure_dialogues kvs).lookup k = kvs.lookup k) ∧
    (∀ (backend : Except String String)
      (loads : String → Except String JValue) (r : JValue),
      game_action_try backend loads = .ok r →
      (r.lookupKey "dialogues").isSome = true) ∧
    (∀ (backend : Except String String)
      (loads : String → Except String JValue) (r : JValue),
      roll_result_try backend loads = .ok r →
      (r.lookupKey "dialogues").isSome = true) := by
  have key1 : ∀ kvs : List (String × JValue),
      ((ensure_dialogues kvs).lookup "dialogues").isSome = true := by
    intro kvs
    unfold ensure_dialogues
    by_cases h : (kvs.lookup "dialogues").isSome = true
    · rw [if_pos h]; exact h
    · rw [if_neg h, List.lookup_append]
      have hnone : kvs.lookup "dialogues" = none :=
        Option.not_isSome_iff_eq_none.mp (by simpa using h)
      rw [hnone]
      rfl
  have keyJ : ∀ v : JValue, v.isObj = true →
      ((ensure_dialogues_j v).lookupKey "dialogues").isSome = true := by
    intro v hv
    cases v <;> simp [JValue.isObj] at hv
    exact key1 _
  refine ⟨key1, ?_, ?_, ?_, ?_, ?_⟩
  · intro kvs h
    unfold ensure_dialogues
    rw [if_pos h]
  · intro kvs h
    unfold ensure_dialogues
    rw [if_neg (by simp [h])]
  · intro kvs k hk
    unfold ensure_dialogues
    by_cases h : (kvs.lookup "dialogues").isSome = true
    · rw [if_pos h]
    · rw [if_neg h]
      exact lookup_append_dialogues_ne kvs k hk
  · intro backend loads r h
    cases backend with
    | error e => exact absurd h (by simp [game_action_try, call_gemini])
    | ok text =>
      have h' : (match parse_json_response text (loads text) with
          | Except.error e => Except.error e
          | Except.ok result => Except.ok (ensure_dialogues_j result)) =
          Except.ok r := h
      cases hp : parse_json_response text (loads text) with
      | error e => rw [hp] at h'; exact absurd h' (by simp)
      | ok result =>
        rw [hp] at h'
        have hobj := parse_json_response_ok_isObj _ _ _ hp
        have hr : ensure_dialogues_j result = r := by
          simpa using h'
        rw [← hr]
        exact keyJ result hobj
  · intro backend loads r h
    cases backend with
    | error e => exact absurd h (by simp [roll_result_try, call_gemini])
    | ok text =>
      have h' : (match parse_json_response text (loads text) with
          | Except.error e => Except.error e
          | Except.ok result => Except.ok (ensure_dialogues_j result)) =
          Except.ok r := h
      cases hp : parse_json_response text (loads text) with
      | error e => rw [hp] at h'; exact absurd h' (by simp)
      | ok result =>
        rw [hp] at h'
        have hobj := parse_json_response_ok_isObj _ _ _ hp
        have hr : ensure_dialogues_j result = r := by
          simpa using h'
        rw [← hr]
        exact keyJ result hobj

/-- Witness for `ensure_dialogues_spec`: a mapping without `dialogues` gets
exactly the empty-list binding appended; an unrelated key is preserved. -/
theorem ensure_dialogues_spec_witness :
    ensure_dialogues [("narration", JValue.str "n")] =
      [("narration", JValue.str "n"), ("dialogues", JValue.arr [])] ∧
    (ensure_dialogues [("narration", JValue.str "n")]).lookup "narration" =
      [("narration", JValue.str "n")].lookup "narration" :=
  ⟨ensure_dialogues_spec.2.2.1 [("narration", JValue.str "n")] rfl,
   ensure_dialogues_spec.2.2.2.1 [("narration", JValue.str "n")] "narration"
     (by decide)⟩

/-- C1 (refuting evaluation): contrary to the claim, `game_action` does NOT
swallow upstream or parse failures.  `call_gemini` and
`parse_json_response` wrap their failures as `HTTPException`, and
`game_action`'s `except HTTPException: raise` re-raises them, so both a
parse failure (upstream text `{not json`) and an upstream generation
failure propagate as HTTP 500 errors — the `success: true` fallback
GameEvent is returned only for exceptions that are not `HTTPException`. -/
theorem game_action_failure_propagates :
    game_action (.ok "\x7bnot json")
      (fun _ => .error "Expecting property name enclosed in double quotes") =
      .error (.httpException 500
        ⟨"AI 응답(JSON) 파싱에 실패했습니다.",
         "Expecting property name enclosed in double quotes",
         some "\x7bnot json"⟩) ∧
    game_action (.error "upstream boom") (fun _ => .ok .null) =
      .error (.httpException 500
        ⟨"Gemini 호출 중 오류가 발생했습니다.", "upstream boom", none⟩) ∧
    game_action (.ok "\x7bnot json")
      (fun _ => .error "Expecting property name enclosed in double quotes") ≠
      .ok ⟨true, game_action_fallback⟩ :=
  ⟨rfl, rfl, fun h => Except.noConfusion h⟩

/-- C2: `roll_result_narration`'s bare `except:` swallows every exception
raised by the upstream call or by normalization: whenever the try-block
fails, the route returns `success: true` with the hand-authored neutral
fallback (empty `dialogues`, `damage_taken` 0, `danger_level` `"safe"`,
`image_prompt` null). -/
theorem roll_result_narration_swallows (backend : Except String String)
    (loads : String → Except String JValue) (e : PyExc)
    (h : roll_result_try backend loads = .error e) :
    roll_result_narration backend loads = ⟨true, roll_result_fallback⟩ ∧
    (roll_result_narration backend loads).success = true ∧
    (roll_result_narration backend loads).result.lookupKey "dialogues" =
      some (.arr []) ∧
    (roll_result_narration backend loads).result.lookupKey "damage_taken" =
      some (.num 0) ∧
    (roll_result_narration backend loads).result.lookupKey "danger_level" =
      some (.str "safe") ∧
    (roll_result_narration backend loads).result.lookupKey "image_prompt" =
      some .null := by
  have hr : roll_result_narration backend loads = ⟨true, roll_result_fallback⟩ := by
    unfold roll_result_narration
    rw [h]
  refine ⟨hr, ?_, ?_, ?_, ?_, ?_⟩ <;> rw [hr] <;> rfl

/-- Witness for `roll_result_narration_swallows`: a concrete upstream
failure (the backend call raises `boom`). -/
theorem roll_result_narration_swallows_witness :
    roll_result_narration (.error "boom") (fun _ => .ok .null) =
      ⟨true, roll_result_fallback⟩ :=
  (roll_result_narration_swallows (.error "boom") (fun _ => .ok .null)
    (.httpException 500 ⟨"Gemini 호출 중 오류가 발생했습니다.", "boom", none⟩)
    rfl).1
